import Mathlib

/-!
Verification development for the Fake Frog temperature logger
(`src/main.cpp`, an Arduino sketch).  The C++ source is shallowly embedded:
pure expressions become Lean functions over `Nat`/`ℚ`/`ℝ`, the global
mutable data-point variables become explicit state records, the SD-card
file and the serial/file diagnostic sinks become explicit value-level
structures, and the fatal busy-loop halt (`while (true);`) becomes a
terminal `Outcome.halted` value, following the design note that the halt
is modelled as a terminal state rather than an actual spin loop.
Machine integers are modelled as `Nat` with explicit `% 256` (for the
`uint8_t` seconds counter) and `% 4294967296` (for `uint32_t`
arithmetic) at the points where the C code can overflow or wrap.
-/

namespace FakeFrog

/-! ## Compile-time constants (main.cpp lines 23-74) -/

def NUM_SAMPLES : Nat := 20
def READING_INTERVAL : Nat := 60
def NUM_THERMISTORS : Nat := 4
def MAX_DATA_FILES : Nat := 1000
/-- `2^32`, the modulus of `uint32_t` arithmetic. -/
def U32 : Nat := 4294967296

/-! ## Storage name allocator (setup(), lines 360-380)

The data-file name loop splices the three decimal digits of `i` into the
template `"dat_000.csv"` at positions 4, 5, 6 using
`i / 100 + 48`, `i / 10 % 10 + 48`, `i % 10 + 48` (ASCII digits), and
opens the first candidate for which `SD.exists` is false.  The medium is
modelled as a predicate `ex : String → Bool` telling which names exist. -/

/-- The candidate data-file name for index `i`: the template
`"dat_000.csv"` with the three digit characters spliced in exactly as the
source computes them. -/
def dataFileName (i : Nat) : String :=
  "dat_" ++ String.mk [Char.ofNat (i / 100 + 48), Char.ofNat (i / 10 % 10 + 48),
    Char.ofNat (i % 10 + 48)] ++ ".csv"

/-- The scan loop of `setup()` starting at index `i` with `fuel`
iterations remaining (the source runs `i` from 0 with `MAX_DATA_FILES`
iterations, so `fuel` starts at 1000).  Returns the first free name, or
`none` when the loop exhausts the index space without a `break`. -/
def allocAux (ex : String → Bool) : Nat → Nat → Option String
  | 0, _ => none
  | fuel+1, i =>
    if ex (dataFileName i) then allocAux ex fuel (i + 1)
    else some (dataFileName i)

/-- The data-file name allocator: scan indices `0..999` in ascending
order and return the first name that does not exist on the medium. -/
def allocate (ex : String → Bool) : Option String :=
  allocAux ex MAX_DATA_FILES 0

/-- A medium on which exactly `dat_000.csv` .. `dat_005.csv` exist. -/
def ex6 : String → Bool := fun s => (List.range 6).any fun i => dataFileName i == s

/-! ## Cadence scheduler (loop(), lines 409-441)

`timer` is the `uint8_t` elapsed-seconds counter, `milli_timer` the
`uint32_t` measured duration of the iteration.  The drift-correction
`while (milli_timer >= 1000) { timer++; milli_timer -= 1000; }` loop is
embedded with an explicit fuel argument; each loop iteration strictly
decreases `milli_timer` by 1000, so `fuel = milli_timer` iterations
always suffice. -/

/-- `uint32_t` subtraction `a - b` with wraparound. -/
def u32_sub (a b : Nat) : Nat := (a % U32 + (U32 - b % U32)) % U32

/-- The drift-correction while loop (lines 433-437): while
`milli_timer ≥ 1000`, increment `timer` (as `uint8_t`) and subtract 1000
from `milli_timer`.  `fuel` bounds the number of iterations. -/
def driftLoopAux : Nat → Nat → Nat → Nat × Nat
  | 0, t, m => (t, m)
  | fuel+1, t, m =>
    if 1000 ≤ m then driftLoopAux fuel ((t + 1) % 256) (m - 1000)
    else (t, m)

/-- The drift-correction loop entered with `timer = t` and
`milli_timer = m`. -/
def driftLoop (t m : Nat) : Nat × Nat := driftLoopAux m t m

/-- Lines 432-440 after the duration measurement: run the drift loop,
then `timer++`, and request `delay(1000 - milli_timer)` (a `uint32_t`
subtraction).  Returns the new `timer` and the requested sleep
duration in milliseconds. -/
def driftSection (t d : Nat) : Nat × Nat :=
  let p := driftLoop t d
  ((p.1 + 1) % 256, u32_sub 1000 p.2)

/-- One full iteration of `loop()` with measured processing duration `d`
ms: if `timer ≥ READING_INTERVAL` the readings fire and `timer` is reset
to 0 first (lines 412-418), then the end-of-iteration timer update and
sleep request run. -/
def loopIter (timer d : Nat) : Nat × Nat :=
  driftSection (if READING_INTERVAL ≤ timer then 0 else timer) d

/-- `n` iterations of `loop()`, each with a simulated processing cost of
1400 ms, starting from `timer = t`; returns the final `timer`. -/
def runTimer : Nat → Nat → Nat
  | 0, t => t
  | n+1, t => runTimer n (loopIter t 1400).1

/-! ## Unit conversion (lines 209-233)

The C code computes on `double`; the numeric pipeline is embedded over
`ℝ`.  `take_reading` accumulates the sum of `NUM_SAMPLES = 20` raw ADC
samples in `latest_resistance[t]` and then overwrites it with
`THERMISTOR_SERIES_RES / (1023 / (sum / NUM_SAMPLES) - 1)`. -/

/-- Line 228-229: the resistance computed from the accumulated sample
sum `s`: `10000 / (1023 / (s / 20) - 1)`. -/
noncomputable def sum_to_resistance (s : ℝ) : ℝ :=
  10000 / (1023 / (s / 20) - 1)

/-- Lines 209-213: `resistance_to_temperature`, the simplified Beta-form
thermistor equation
`T = 1/(ln(R/R_0)/B + 1/(T_nom + 273.15)) - 273.15` with
`R_0 = 10000`, `B = 3950`, `T_nom = 25`. -/
noncomputable def resistance_to_temperature (r : ℝ) : ℝ :=
  1 / ((Real.log (r / 10000) / 3950) + 1 / (25 + 273.15)) - 273.15

/-- The spec's `resistanceFromRaw` contract (§4.1), written from the
spec's words for the refinement claim C3: `R = R_series /
(fullScaleMinusOne / rawMean − 1)` with `R_series = 10000` and
`fullScaleMinusOne = 1023`. -/
noncomputable def resistanceFromRaw (m : ℝ) : ℝ :=
  10000 / (1023 / m - 1)

/-- The spec's `temperatureFromResistance` contract (§4.1), written from
the spec's words for the refinement claim C3. -/
noncomputable def temperatureFromResistance (R : ℝ) : ℝ :=
  1 / (Real.log (R / 10000) / 3950 + 1 / (25 + 273.15)) - 273.15

/-- The raw-mean to temperature composition realised by `take_reading`
(resistance from the mean, then `resistance_to_temperature`). -/
noncomputable def temp_from_raw (m : ℝ) : ℝ :=
  resistance_to_temperature (resistanceFromRaw m)

/-! ## Timestamp and record formatting (lines 91-96, 203-257)

`update_formatted_timestamp` runs
`sprintf("%04u-%02u-%02uT%02u:%02u:%02u", ...)`; `%0ku` zero-pads to a
minimum width of `k` digits and prints the full value when it does not
fit.  `dtostrf(x, 5, 2, buf)` renders `x` with exactly 2 fractional
digits, right-justified to a minimum width of 5 with spaces; it is
modelled over `ℚ` (the `double` values are treated as exact rationals,
rounding to hundredths). -/

/-- `%02u`: the decimal digits of `n`, zero-padded to width 2. -/
def pad2 (n : Nat) : String :=
  if n < 100 then String.mk [Char.ofNat (n / 10 + 48), Char.ofNat (n % 10 + 48)]
  else toString n

/-- `%04u`: the decimal digits of `n`, zero-padded to width 4. -/
def pad4 (n : Nat) : String :=
  if n < 10000 then
    String.mk [Char.ofNat (n / 1000 + 48), Char.ofNat (n / 100 % 10 + 48),
      Char.ofNat (n / 10 % 10 + 48), Char.ofNat (n % 10 + 48)]
  else toString n

/-- The `DateTime` value delivered by `rtc.now()`. -/
structure Timestamp where
  year : Nat
  month : Nat
  day : Nat
  hour : Nat
  minute : Nat
  second : Nat
deriving DecidableEq

/-- Lines 204-207: the formatted timestamp
`YYYY-MM-DDTHH:MM:SS` produced from `now`. -/
def update_formatted_timestamp (t : Timestamp) : String :=
  pad4 t.year ++ "-" ++ pad2 t.month ++ "-" ++ pad2 t.day ++ "T" ++
    pad2 t.hour ++ ":" ++ pad2 t.minute ++ ":" ++ pad2 t.second

/-- `dtostrf(x, 5, 2, buf)`: round to hundredths, print
`[-]intpart.dd`, and left-pad with spaces to a minimum width of 5. -/
def dtostrf_5_2 (x : ℚ) : String :=
  let scaled : Int := round (x * 100)
  let n : Nat := scaled.natAbs
  let core : String :=
    (if scaled < 0 then "-" else "") ++ toString (n / 100) ++ "." ++ pad2 (n % 100)
  String.mk (List.replicate (5 - core.length) ' ') ++ core

/-! ## SD-card data file and diagnostic sink (lines 79-160, 235-257)

The data file records its completed lines, the buffered bytes of the
current (unterminated) line, and how many completed lines have been made
durable by `flush`.  The diagnostic sink records the chunks written to
the serial console (`SERIAL_LOGGING` is compiled `true`, so every `log`
reaches it) and, when the log-file handle is valid, the chunks mirrored
to the log file. -/

structure DataFile where
  lines : List String
  lineBuf : String
  flushed : Nat
deriving DecidableEq

/-- `data_file.print(s)`: append to the current line buffer. -/
def DataFile.print (f : DataFile) (s : String) : DataFile :=
  { f with lineBuf := f.lineBuf ++ s }

/-- `data_file.println(s)`: complete the current line. -/
def DataFile.println (f : DataFile) (s : String) : DataFile :=
  { f with lines := f.lines ++ [f.lineBuf ++ s], lineBuf := "" }

/-- `data_file.flush()`: make all completed lines durable. -/
def DataFile.flush (f : DataFile) : DataFile :=
  { f with flushed := f.lines.length }

/-- A freshly created, empty data file. -/
def emptyFile : DataFile := ⟨[], "", 0⟩

structure DiagState where
  serial : List String
  logFileValid : Bool
  logLines : List String
deriving DecidableEq

/-- Lines 126-150: `log(msg)` writes to the serial console
(`SERIAL_LOGGING` is `true`) and mirrors to the log file when its handle
is valid.  The `with_newline` flag only affects layout, not which chunks
are emitted, so it is not tracked. -/
def log (st : DiagState) (msg : String) : DiagState :=
  { st with serial := st.serial ++ [msg],
            logLines := if st.logFileValid then st.logLines ++ [msg] else st.logLines }

/-- The result of a program fragment that may hit the fatal path:
`halted msgs` is the non-returning busy-loop `while (true);` reached
after the serial sink emitted `msgs`, modelled as a terminal state. -/
inductive Outcome (α : Type) where
  | ok : α → Outcome α
  | halted : List String → Outcome α

/-- Sequencing: a fragment that halted never passes control to its
continuation. -/
def Outcome.bind {α β : Type} : Outcome α → (α → Outcome β) → Outcome β
  | .ok a, k => k a
  | .halted m, _ => .halted m

/-- Lines 163-167: `log_error` logs the message, flushes (a no-op on
this model's always-durable sinks), and hangs forever. -/
def log_error {α : Type} (st : DiagState) (msg : String) : Outcome α :=
  Outcome.halted (log st msg).serial

/-- Lines 268-274: SD-card initialization; `sd_ok` is the result of
`SD.begin()`. -/
def setupSD (sd_ok : Bool) (st : DiagState) : Outcome DiagState :=
  let st1 := log st "Initializing SD card... "
  if sd_ok then Outcome.ok (log st1 "Done.") else log_error st1 "Failed."

/-- Lines 300-306: RTC initialization; `rtc_ok` is the result of
`rtc.begin()`. -/
def setupRTC (rtc_ok : Bool) (st : DiagState) : Outcome DiagState :=
  let st1 := log st "Initializing RTC... "
  if rtc_ok then Outcome.ok (log st1 "Done.") else log_error st1 "Failed."

/-- Lines 360-380: allocate the data-file name and open it
(`openOk` is the success of `SD.open`); the fatal path is taken when the
scan exhausts all 1000 slots or the open fails. -/
def setupDataFile (ex : String → Bool) (openOk : Bool) (st : DiagState) :
    Outcome (DiagState × String) :=
  let st1 := log st "Creating data file... "
  match allocate ex with
  | some n => if openOk then Outcome.ok (log st1 "Done.", n) else log_error st1 "Failed."
  | none => log_error st1 "Failed."

/-- Lines 382-384: print the CSV header line and flush. -/
def writeHeader (f : DataFile) : DataFile :=
  (f.println "Timestamp,Temp1,Temp2,Temp3,Temp4").flush

/-- Lines 235-257: `save_reading_to_card`.  `valid` is the truthiness of
the `data_file` handle; `now` and `temps` are the global data-point
variables at the time of the call.  When the handle is invalid the whole
body — including every `log` call — is skipped. -/
def save_reading_to_card (valid : Bool) (now : Timestamp) (temps : Fin 4 → ℚ)
    (file : DataFile) (diag : DiagState) : DataFile × DiagState :=
  if valid then
    let ts := update_formatted_timestamp now
    let t0 := dtostrf_5_2 (temps 0)
    let t1 := dtostrf_5_2 (temps 1)
    let t2 := dtostrf_5_2 (temps 2)
    let t3 := dtostrf_5_2 (temps 3)
    let d1 := log diag "Took reading: "
    let d2 := log d1 ts
    let d3 := log (log d2 ",") t0
    let d4 := log (log d3 ",") t1
    let d5 := log (log d4 ",") t2
    let d6 := log (log d5 ",") t3
    let f1 := (file.print ts).print ","
    let f2 := (f1.print t0).print ","
    let f3 := (f2.print t1).print ","
    let f4 := (f3.print t2).print ","
    let f5 := ((f4.println t3)).flush
    (f5, d6)
  else (file, diag)

/-- The single delimited line a valid `save_reading_to_card` call
appends for timestamp/readings `r`. -/
def recordLine (r : Timestamp × (Fin 4 → ℚ)) : String :=
  update_formatted_timestamp r.1 ++ "," ++ dtostrf_5_2 (r.2 0) ++ "," ++
    dtostrf_5_2 (r.2 1) ++ "," ++ dtostrf_5_2 (r.2 2) ++ "," ++ dtostrf_5_2 (r.2 3)

/-- A sequence of sampling cycles: each entry is the `(now, temps)` pair
of one completed cycle, written by `save_reading_to_card` with the given
handle validity. -/
def runCycles (valid : Bool) (recs : List (Timestamp × (Fin 4 → ℚ)))
    (f : DataFile) (d : DiagState) : DataFile × DiagState :=
  recs.foldl (fun fd r => save_reading_to_card valid r.1 r.2 fd.1 fd.2) (f, d)

/-! ## Channel sampling (lines 215-233, 409-418)

The global data-point variables `now`, `latest_resistance`,
`latest_temperature` together with the RTC and the ADC environment.
`clock n` is the value returned by the `n`-th call of `rtc.now()` (the
state counts those calls); `samples t j` is the raw value delivered by
the `j`-th `analogRead` of thermistor `t` . -/

structure ReadState where
  clock : Nat → Timestamp
  clockCalls : Nat
  samples : Fin 4 → Nat → ℝ
  now : Timestamp
  latest_resistance : Fin 4 → ℝ
  latest_temperature : Fin 4 → ℝ

/-- Lines 215-233: `take_reading(t)` — reads the RTC into `now`,
accumulates `NUM_SAMPLES` raw samples of channel `t`, and overwrites
`latest_resistance[t]` and `latest_temperature[t]` with the converted
values. -/
noncomputable def take_reading (st : ReadState) (t : Fin 4) : ReadState :=
  let s : ℝ := (List.range NUM_SAMPLES).foldl (fun a j => a + st.samples t j) 0
  { st with
    now := st.clock st.clockCalls
    clockCalls := st.clockCalls + 1
    latest_resistance := Function.update st.latest_resistance t (sum_to_resistance s)
    latest_temperature := Function.update st.latest_temperature t
      (resistance_to_temperature (sum_to_resistance s)) }

/-- Lines 414-416: the per-cycle loop `for z in 0..3, take_reading(z)`. -/
noncomputable def sample_all (st : ReadState) : ReadState :=
  ([0, 1, 2, 3] : List (Fin 4)).foldl take_reading st

/-! ## Concrete instances used by witnesses and counterexamples -/

/-- A concrete timestamp, 2024-01-02T03:04:05. -/
def ts0 : Timestamp := ⟨2024, 1, 2, 3, 4, 5⟩

/-- Concrete per-channel temperatures 23.45, 19.02, -4.5, 0 °C. -/
def temps0 : Fin 4 → ℚ := fun j =>
  if j = 0 then 23.45 else if j = 1 then 19.02 else if j = 2 then -4.5 else 0

/-- A diagnostic sink with a valid log file and nothing yet written. -/
def diag0 : DiagState := ⟨[], true, []⟩

/-- A data file holding just the flushed header line. -/
def file1 : DataFile := ⟨["Timestamp,Temp1,Temp2,Temp3,Temp4"], "", 1⟩

/-- A concrete sampling state whose RTC delivers a distinct timestamp on
every call (the `n`-th call reads second `n`). -/
noncomputable def rs0 : ReadState :=
  { clock := fun n => ⟨2024, 1, 1, 0, 0, n⟩
    clockCalls := 0
    samples := fun _ _ => 0
    now := ⟨2024, 1, 1, 0, 0, 99⟩
    latest_resistance := fun _ => 0
    latest_temperature := fun _ => 0 }

/-! ## Helper lemmas -/

/-- Evaluation helper for `round` on rational literals (the kernel
cannot reduce `Rat` normalization, so rounding is settled by
`norm_num` through this bound-based characterization). -/
theorem round_rat_eq (x : ℚ) (n : ℤ) (h1 : (n : ℚ) ≤ x + 1/2) (h2 : x + 1/2 < n + 1) :
    round x = n := by
  rw [round_eq]
  exact Int.floor_eq_iff.mpr ⟨h1, by exact_mod_cast h2⟩

theorem dtostrf_pos_example : dtostrf_5_2 (23.45 : ℚ) = "23.45" := by
  have h : round ((23.45 : ℚ) * 100) = 2345 :=
    round_rat_eq _ _ (by norm_num) (by norm_num)
  simp only [dtostrf_5_2, h]
  decide

theorem dtostrf_pos_example2 : dtostrf_5_2 (19.02 : ℚ) = "19.02" := by
  have h : round ((19.02 : ℚ) * 100) = 1902 :=
    round_rat_eq _ _ (by norm_num) (by norm_num)
  simp only [dtostrf_5_2, h]
  decide

theorem dtostrf_neg_example : dtostrf_5_2 (-4.5 : ℚ) = "-4.50" := by
  have h : round ((-4.5 : ℚ) * 100) = -450 :=
    round_rat_eq _ _ (by norm_num) (by norm_num)
  simp only [dtostrf_5_2, h]
  decide

theorem dtostrf_zero_example : dtostrf_5_2 (0 : ℚ) = " 0.00" := by
  have h : round ((0 : ℚ) * 100) = 0 :=
    round_rat_eq _ _ (by norm_num) (by norm_num)
  simp only [dtostrf_5_2, h]
  decide

/-- If the fuel covers `m / 1000` iterations, the drift loop leaves
`milli_timer = m % 1000`. -/
theorem driftLoopAux_snd : ∀ (fuel t m : Nat), m / 1000 ≤ fuel →
    (driftLoopAux fuel t m).2 = m % 1000 := by
  intro fuel
  induction fuel with
  | zero => intro t m hm; simp only [driftLoopAux]; omega
  | succ n ih =>
    intro t m hm
    simp only [driftLoopAux]
    split
    · next h => rw [ih ((t + 1) % 256) (m - 1000) (by omega)]; omega
    · next h => omega

/-- If additionally `timer < 256`, the drift loop adds exactly
`m / 1000` to `timer` in `uint8_t` arithmetic. -/
theorem driftLoopAux_fst : ∀ (fuel t m : Nat), m / 1000 ≤ fuel → t < 256 →
    (driftLoopAux fuel t m).1 = (t + m / 1000) % 256 := by
  intro fuel
  induction fuel with
  | zero => intro t m hm ht; simp only [driftLoopAux]; omega
  | succ n ih =>
    intro t m hm ht
    simp only [driftLoopAux]
    split
    · next h =>
      rw [ih ((t + 1) % 256) (m - 1000) (by omega) (Nat.mod_lt _ (by omega))]
      omega
    · next h => omega

theorem driftLoop_snd (t m : Nat) : (driftLoop t m).2 = m % 1000 :=
  driftLoopAux_snd m t m (Nat.div_le_self m 1000)

theorem driftLoop_fst (t m : Nat) (ht : t < 256) :
    (driftLoop t m).1 = (t + m / 1000) % 256 :=
  driftLoopAux_fst m t m (Nat.div_le_self m 1000) ht

/-- If the allocator scan returns a name, that name is `dataFileName k`
for the first index `k` in the scanned window that is free. -/
theorem allocAux_some (ex : String → Bool) :
    ∀ fuel i s, allocAux ex fuel i = some s →
      ∃ k, i ≤ k ∧ k < i + fuel ∧ s = dataFileName k ∧ ex (dataFileName k) = false ∧
        ∀ j, i ≤ j → j < k → ex (dataFileName j) = true := by
  intro fuel
  induction fuel with
  | zero => intro i s h; simp [allocAux] at h
  | succ n ih =>
    intro i s h
    simp only [allocAux] at h
    by_cases hx : ex (dataFileName i) = true
    · simp only [hx, if_true] at h
      obtain ⟨k, hik, hkf, hs, hxk, hmin⟩ := ih (i + 1) s h
      refine ⟨k, by omega, by omega, hs, hxk, fun j hij hjk => ?_⟩
      rcases Nat.eq_or_lt_of_le hij with rfl | hlt
      · exact hx
      · exact hmin j (by omega) hjk
    · simp only [hx, if_false] at h
      have hs : s = dataFileName i := by
        cases h
        rfl
      exact ⟨i, Nat.le_refl i, by omega, hs, by simp [Bool.not_eq_true] at hx; exact hx,
        fun j hij hjk => absurd (Nat.lt_of_le_of_lt hij hjk) (Nat.lt_irrefl i)⟩

/-- If every name in the scanned window exists, the scan finds none. -/
theorem allocAux_none (ex : String → Bool) :
    ∀ fuel i, (∀ k, i ≤ k → k < i + fuel → ex (dataFileName k) = true) →
      allocAux ex fuel i = none := by
  intro fuel
  induction fuel with
  | zero => intro i _; rfl
  | succ n ih =>
    intro i hall
    have hx : ex (dataFileName i) = true := hall i (Nat.le_refl i) (by omega)
    simp only [allocAux, hx, if_true]
    exact ih (i + 1) fun k hk1 hk2 => hall k (by omega) (by omega)

/-! ## Claim theorems -/

/-- C1: the data-file name allocator scans indices 0..999 in ascending
order with zero-padded 3-digit names `dat_NNN.csv` and takes the first
free slot: on an empty medium it picks `dat_000.csv`; with
`dat_000.csv..dat_005.csv` occupied it picks `dat_006.csv`; any name it
returns does not already exist and all smaller-indexed names do exist;
and when all 1000 slots are occupied it returns no name and `setup`
reaches the fatal halt (`log_error`) instead of overwriting a file. -/
theorem allocator_spec :
    allocate (fun _ => false) = some "dat_000.csv"
  ∧ allocate ex6 = some "dat_006.csv"
  ∧ (∀ ex s, allocate ex = some s →
      ∃ i, i < 1000 ∧ s = dataFileName i ∧ ex (dataFileName i) = false ∧
        ∀ j, j < i → ex (dataFileName j) = true)
  ∧ (∀ ex, (∀ i, i < 1000 → ex (dataFileName i) = true) →
      allocate ex = none
      ∧ ∀ st openOk, setupDataFile ex openOk st
          = Outcome.halted ((log (log st "Creating data file... ") "Failed.").serial)) := by
  refine ⟨by decide, by decide, ?_, ?_⟩
  · intro ex s h
    obtain ⟨k, h0, hk, hs, hx, hmin⟩ := allocAux_some ex MAX_DATA_FILES 0 s h
    exact ⟨k, by revert hk; simp [MAX_DATA_FILES], hs, hx, fun j hj => hmin j (by omega) hj⟩
  · intro ex hall
    have hnone : allocate ex = none :=
      allocAux_none ex MAX_DATA_FILES 0 (fun k h1 h2 => hall k (by revert h2; simp [MAX_DATA_FILES]))
    refine ⟨hnone, fun st openOk => ?_⟩
    simp [setupDataFile, hnone, log_error]

/-- Witness for C1 at concrete media: the empty medium (where the
returned name `dat_000.csv` is free and all earlier names — there are
none — exist), and the full medium (where allocation fails). -/
theorem allocator_spec_witness :
    (∃ i, i < 1000 ∧ "dat_000.csv" = dataFileName i
        ∧ (fun _ => false : String → Bool) (dataFileName i) = false
        ∧ ∀ j, j < i → (fun _ => false : String → Bool) (dataFileName j) = true)
  ∧ allocate (fun _ => true) = none :=
  ⟨allocator_spec.2.2.1 (fun _ => false) "dat_000.csv" (by decide),
   (allocator_spec.2.2.2 (fun _ => true) (fun _ _ => rfl)).1⟩

/-- C2: at the end of every `loop()` iteration with measured duration
`d` ms, the drift-correction section increments the `uint8_t` seconds
counter by exactly `1 + ⌊d / 1000⌋` (mod 256) and requests a sleep of
`1000 - d % 1000` ms; and with a simulated 1400 ms processing cost per
iteration, 10 iterations starting from `timer = 0` advance the counter
by 20 ≥ 14, at least the whole seconds of real cost. -/
theorem scheduler_drift :
    (∀ t d : Nat, t < 256 →
      driftSection t d = ((t + 1 + d / 1000) % 256, 1000 - d % 1000))
  ∧ runTimer 10 0 = 20 ∧ 14 ≤ runTimer 10 0 := by
  refine ⟨?_, by decide, by decide⟩
  intro t d ht
  simp only [driftSection, u32_sub, U32, driftLoop_snd, driftLoop_fst t d ht,
    Prod.mk.injEq]
  omega

/-- Witness for C2 at `timer = 0`, `d = 1400`: the counter gains
`1 + ⌊1400/1000⌋ = 2` and the sleep request is `1000 - 400 = 600` ms. -/
theorem scheduler_drift_witness :
    (0 : Nat) < 256
  ∧ driftSection 0 1400 = ((0 + 1 + 1400 / 1000) % 256, 1000 - 1400 % 1000)
  ∧ driftSection 0 1400 = (2, 600) :=
  ⟨by decide, scheduler_drift.1 0 1400 (by decide), by decide⟩

/-- C10: at the `delay(1000 - milli_timer)` call, the drift loop has
left `milli_timer < 1000`, so the `uint32_t` subtraction equals plain
subtraction (no wraparound) and the requested sleep lies in
`[1, 1000]` ms. -/
theorem sleep_no_wrap (t d : Nat) :
    (driftLoop t d).2 < 1000
  ∧ u32_sub 1000 (driftLoop t d).2 = 1000 - (driftLoop t d).2
  ∧ 1 ≤ u32_sub 1000 (driftLoop t d).2
  ∧ u32_sub 1000 (driftLoop t d).2 ≤ 1000 := by
  have h := driftLoop_snd t d
  simp only [u32_sub, U32, h]
  omega

/-- C3: the unit conversion is exactly the stated closed forms: the
resistance computed from the accumulated sample sum `s` (whose mean is
`m = s / 20`) is `10000 / (1023 / m - 1)`, and the temperature computed
from a resistance `r` is `1 / (ln(r/10000)/3950 + 1/(25 + 273.15)) -
273.15`; both are functions of their input alone (pure and
deterministic by construction). -/
theorem conversion_closed_forms :
    (∀ s : ℝ, sum_to_resistance s = resistanceFromRaw (s / 20))
  ∧ (∀ m : ℝ, resistanceFromRaw m = 10000 / (1023 / m - 1))
  ∧ (∀ r : ℝ, resistance_to_temperature r = temperatureFromResistance r)
  ∧ (∀ r : ℝ, temperatureFromResistance r
        = 1 / (Real.log (r / 10000) / 3950 + 1 / (25 + 273.15)) - 273.15)
  ∧ (∀ m : ℝ, sum_to_resistance (20 * m) = resistanceFromRaw m) := by
  refine ⟨fun s => rfl, fun m => rfl, fun r => rfl, fun r => rfl, fun m => ?_⟩
  unfold sum_to_resistance resistanceFromRaw
  rw [mul_div_cancel_left₀ m (by norm_num : (20 : ℝ) ≠ 0)]

/-- For `0 < m < 1023` the divider denominator is positive, so the
computed resistance is positive. -/
theorem resistanceFromRaw_pos {m : ℝ} (h0 : 0 < m) (h1 : m < 1023) :
    0 < resistanceFromRaw m := by
  have h2 : (1 : ℝ) < 1023 / m := (one_lt_div h0).mpr h1
  have h3 : (0 : ℝ) < 1023 / m - 1 := by linarith
  exact div_pos (by norm_num) h3

/-- On `(0, 1023)` the computed resistance is strictly increasing in the
raw mean. -/
theorem resistanceFromRaw_lt {m1 m2 : ℝ} (h0 : 0 < m1) (h12 : m1 < m2) (h2 : m2 < 1023) :
    resistanceFromRaw m1 < resistanceFromRaw m2 := by
  have hm2 : 0 < m2 := lt_trans h0 h12
  have ha : 1023 / m2 < 1023 / m1 := div_lt_div_of_pos_left (by norm_num) h0 h12
  have hb2 : (0 : ℝ) < 1023 / m2 - 1 := by
    have := (one_lt_div hm2).mpr h2
    linarith
  unfold resistanceFromRaw
  exact div_lt_div_of_pos_left (by norm_num) hb2 (by linarith)

/-- Wherever the Beta-equation denominator at the smaller resistance is
positive, the computed temperature is strictly decreasing in the
resistance. -/
theorem temp_lt_of_denom_pos {r1 r2 : ℝ} (h1 : 0 < r1) (h12 : r1 < r2)
    (hD : 0 < Real.log (r1 / 10000) / 3950 + 1 / (25 + 273.15)) :
    resistance_to_temperature r2 < resistance_to_temperature r1 := by
  have hlog : Real.log (r1 / 10000) < Real.log (r2 / 10000) :=
    Real.log_lt_log (div_pos h1 (by norm_num))
      ((div_lt_div_iff_of_pos_right (by norm_num)).mpr h12)
  have hD2 : Real.log (r1 / 10000) / 3950 + 1 / (25 + 273.15)
      < Real.log (r2 / 10000) / 3950 + 1 / (25 + 273.15) := by
    have := (div_lt_div_iff_of_pos_right (by norm_num : (0 : ℝ) < 3950)).mpr hlog
    linarith
  have hinv : 1 / (Real.log (r2 / 10000) / 3950 + 1 / (25 + 273.15))
      < 1 / (Real.log (r1 / 10000) / 3950 + 1 / (25 + 273.15)) :=
    one_div_lt_one_div_of_lt hD hD2
  unfold resistance_to_temperature
  linarith

/-- At the divider balance point (raw mean `1023/2`) the computed
resistance equals the series resistance. -/
theorem rfr_half : resistanceFromRaw (1023 / 2) = 10000 := by
  unfold resistanceFromRaw
  norm_num

/-- At raw mean `1/5000` the computed resistance is `10000/5114999` Ω. -/
theorem rfr_small : resistanceFromRaw (1 / 5000) = 10000 / 5114999 := by
  unfold resistanceFromRaw
  norm_num

theorem log_5114999_lower : (14 : ℝ) < Real.log 5114999 := by
  rw [Real.lt_log_iff_exp_lt (by norm_num : (0 : ℝ) < 5114999)]
  have h1 : Real.exp 14 = Real.exp 1 ^ (14 : ℕ) := by
    rw [← Real.exp_nat_mul]
    norm_num
  rw [h1]
  have hlt : Real.exp 1 < 2.72 := by
    have := Real.exp_one_lt_d9
    linarith [this]
  calc Real.exp 1 ^ (14 : ℕ) < 2.72 ^ (14 : ℕ) :=
        pow_lt_pow_left₀ hlt (Real.exp_pos 1).le (by norm_num)
    _ < 5114999 := by norm_num

/-- At resistance `10000/5114999` Ω the Beta-equation denominator is
negative: the conversion has crossed its pole. -/
theorem denom_neg_small :
    Real.log ((10000 / 5114999 : ℝ) / 10000) / 3950 + 1 / (25 + 273.15) < 0 := by
  have h : ((10000 / 5114999 : ℝ) / 10000) = ((5114999 : ℝ))⁻¹ := by norm_num
  rw [h, Real.log_inv]
  have hlog := log_5114999_lower
  have h2 : (1 : ℝ) / 298.15 < Real.log 5114999 / 3950 := by
    rw [div_lt_div_iff₀ (by norm_num) (by norm_num)]
    linarith
  have h3 : (25 : ℝ) + 273.15 = 298.15 := by norm_num
  rw [h3]
  linarith

/-- C4 counterexample: both `1/5000` and `1023/2` lie strictly between 0
and full scale, `1/5000 < 1023/2`, yet the raw-mean→temperature
composition yields a strictly *smaller* value at the smaller raw mean
(`temp(1/5000) < -273.15 < 25 = temp(1023/2)`), so the composition is
not monotonically decreasing on `(0, 1023)`: the Beta-equation
denominator changes sign at tiny resistances. -/
theorem conversion_monotone_counterexample :
    (0 : ℝ) < 1 / 5000 ∧ (1 / 5000 : ℝ) < 1023 / 2 ∧ (1023 / 2 : ℝ) < 1023
  ∧ temp_from_raw (1 / 5000) < temp_from_raw (1023 / 2) := by
  refine ⟨by norm_num, by norm_num, by norm_num, ?_⟩
  have h2 : temp_from_raw (1023 / 2) = 25 := by
    unfold temp_from_raw
    rw [rfr_half]
    unfold resistance_to_temperature
    rw [show ((10000 : ℝ) / 10000) = 1 by norm_num, Real.log_one]
    norm_num
  have h1 : temp_from_raw (1 / 5000) < -273.15 := by
    unfold temp_from_raw
    rw [rfr_small]
    unfold resistance_to_temperature
    have hinv : 1 / (Real.log ((10000 / 5114999 : ℝ) / 10000) / 3950 + 1 / (25 + 273.15)) < 0 :=
      one_div_neg.mpr denom_neg_small
    linarith
  linarith

/-- C4 (amended): for `0 < m1 < m2 < 1023` the computed resistance is
positive and strictly increasing in the raw mean; and on the subdomain
where the Beta-equation denominator at `m1`'s resistance is positive
(which excludes only degenerate near-zero raw means below the
conversion's pole), the raw-mean→temperature composition is strictly
decreasing. -/
theorem conversion_monotone_amended (m1 m2 : ℝ) (h0 : 0 < m1) (h12 : m1 < m2)
    (h2 : m2 < 1023) :
    0 < resistanceFromRaw m1
  ∧ resistanceFromRaw m1 < resistanceFromRaw m2
  ∧ (0 < Real.log (resistanceFromRaw m1 / 10000) / 3950 + 1 / (25 + 273.15) →
      temp_from_raw m2 < temp_from_raw m1) :=
  ⟨resistanceFromRaw_pos h0 (lt_trans h12 h2),
   resistanceFromRaw_lt h0 h12 h2,
   fun hD => temp_lt_of_denom_pos (resistanceFromRaw_pos h0 (lt_trans h12 h2))
     (resistanceFromRaw_lt h0 h12 h2) hD⟩

/-- Witness for the amended C4 at `m1 = 1023/2`, `m2 = 1000`: the
denominator condition holds there (the resistance is the nominal
10000 Ω, whose log term vanishes), and the temperature strictly drops
from `m1` to `m2`. -/
theorem conversion_monotone_amended_witness :
    ((0 : ℝ) < 1023 / 2 ∧ (1023 / 2 : ℝ) < 1000 ∧ (1000 : ℝ) < 1023
      ∧ 0 < Real.log (resistanceFromRaw (1023 / 2) / 10000) / 3950 + 1 / (25 + 273.15))
  ∧ 0 < resistanceFromRaw (1023 / 2)
  ∧ temp_from_raw 1000 < temp_from_raw (1023 / 2) := by
  have hD : 0 < Real.log (resistanceFromRaw (1023 / 2) / 10000) / 3950 + 1 / (25 + 273.15) := by
    rw [rfr_half, show ((10000 : ℝ) / 10000) = 1 by norm_num, Real.log_one]
    norm_num
  have h := conversion_monotone_amended (1023 / 2) 1000 (by norm_num) (by norm_num) (by norm_num)
  exact ⟨⟨by norm_num, by norm_num, by norm_num, hD⟩, h.1, h.2.2 hD⟩

theorem str_append_assoc : ∀ (a b c : String), (a ++ b) ++ c = a ++ (b ++ c)
  | ⟨la⟩, ⟨lb⟩, ⟨lc⟩ => congrArg String.mk (List.append_assoc la lb lc)

theorem str_empty_append : ∀ (s : String), "" ++ s = s
  | ⟨_⟩ => rfl

theorem str_length_append : ∀ (a b : String), (a ++ b).length = a.length + b.length
  | ⟨la⟩, ⟨lb⟩ => List.length_append la lb

theorem pad2_length {n : Nat} (h : n < 100) : (pad2 n).length = 2 := by
  simp only [pad2, if_pos h]
  rfl

theorem pad4_length {n : Nat} (h : n < 10000) : (pad4 n).length = 4 := by
  simp only [pad4, if_pos h]
  rfl

theorem digit_char_isDigit {d : Nat} (h : d < 10) : (Char.ofNat (d + 48)).isDigit = true := by
  interval_cases d <;> decide

theorem pad2_digits {n : Nat} (h : n < 100) : ∀ c ∈ (pad2 n).data, c.isDigit = true := by
  simp only [pad2, if_pos h]
  intro c hc
  have h1 : n / 10 < 10 := by omega
  have h2 : n % 10 < 10 := by omega
  rcases List.mem_cons.mp hc with rfl | hc'
  · exact digit_char_isDigit h1
  · rcases List.mem_cons.mp hc' with rfl | hc''
    · exact digit_char_isDigit h2
    · cases hc''

theorem str_reassoc (A S T D Q : String) :
    A ++ (((S ++ T) ++ D) ++ Q) = (A ++ (S ++ T)) ++ (D ++ Q) := by
  simp [str_append_assoc]

/-- The two fractional digits of `dtostrf_5_2`: every rendered value
ends in `.` followed by exactly two decimal digit characters. -/
theorem dtostrf_frac_digits (x : ℚ) :
    ∃ p k, k < 100 ∧ dtostrf_5_2 x = p ++ ("." ++ pad2 k)
      ∧ (pad2 k).length = 2 ∧ ∀ c ∈ (pad2 k).data, c.isDigit = true := by
  have hk : (round (x * 100)).natAbs % 100 < 100 := Nat.mod_lt _ (by norm_num)
  have he : dtostrf_5_2 x =
      (String.mk (List.replicate (5 -
          ((if round (x * 100) < 0 then "-" else "") ++ toString ((round (x * 100)).natAbs / 100)
            ++ "." ++ pad2 ((round (x * 100)).natAbs % 100)).length) ' ')
        ++ ((if round (x * 100) < 0 then "-" else "") ++ toString ((round (x * 100)).natAbs / 100)))
      ++ ("." ++ pad2 ((round (x * 100)).natAbs % 100)) := by
    conv_lhs => simp only [dtostrf_5_2]
    rw [str_reassoc]
  exact ⟨_, _, hk, he, pad2_length hk, pad2_digits hk⟩

theorem update_formatted_timestamp_length (t : Timestamp) (hy : t.year < 10000)
    (hmo : t.month < 100) (hd : t.day < 100) (hh : t.hour < 100)
    (hmi : t.minute < 100) (hs : t.second < 100) :
    (update_formatted_timestamp t).length = 19 := by
  simp only [update_formatted_timestamp, str_length_append, pad4_length hy,
    pad2_length hmo, pad2_length hd, pad2_length hh, pad2_length hmi, pad2_length hs]
  rfl

/-- A valid `save_reading_to_card` call appends exactly its one record
line, leaves no buffered bytes, and flushes everything before
returning. -/
theorem save_valid (now : Timestamp) (temps : Fin 4 → ℚ) (f : DataFile) (d : DiagState)
    (hb : f.lineBuf = "") :
    (save_reading_to_card true now temps f d).1.lines = f.lines ++ [recordLine (now, temps)]
  ∧ (save_reading_to_card true now temps f d).1.lineBuf = ""
  ∧ (save_reading_to_card true now temps f d).1.flushed = f.lines.length + 1 := by
  simp [save_reading_to_card, DataFile.print, DataFile.println, DataFile.flush, hb,
    recordLine, str_empty_append, str_append_assoc]

theorem runCycles_valid (recs : List (Timestamp × (Fin 4 → ℚ))) :
    ∀ (f : DataFile) (d : DiagState), f.lineBuf = "" → f.flushed = f.lines.length →
      (runCycles true recs f d).1.lines = f.lines ++ recs.map recordLine
    ∧ (runCycles true recs f d).1.lineBuf = ""
    ∧ (runCycles true recs f d).1.flushed = ((runCycles true recs f d).1.lines).length := by
  induction recs with
  | nil =>
    intro f d hb hf
    exact ⟨by simp [runCycles], hb, by simpa [runCycles] using hf⟩
  | cons r rs ih =>
    intro f d hb hf
    obtain ⟨h1, h2, h3⟩ := save_valid r.1 r.2 f d hb
    have hstep := ih (save_reading_to_card true r.1 r.2 f d).1
      (save_reading_to_card true r.1 r.2 f d).2 h2
      (by rw [h3, h1]; simp)
    have heq : runCycles true (r :: rs) f d
        = runCycles true rs (save_reading_to_card true r.1 r.2 f d).1
            (save_reading_to_card true r.1 r.2 f d).2 := rfl
    rw [heq]
    refine ⟨?_, hstep.2.1, hstep.2.2⟩
    rw [hstep.1, h1]
    simp

/-- C5: on the data file of a run, the header line
`Timestamp,Temp1,Temp2,Temp3,Temp4` is the first line and is written
exactly once before any data line; every completed sampling cycle
appends exactly one line consisting of the `YYYY-MM-DDTHH:MM:SS`
zero-padded fixed-width (19-character) timestamp and the four channel
temperatures, each rendered with exactly 2 fractional digits, joined by
commas; and every line is flushed before the writer returns (the
durable count always equals the line count). -/
theorem record_format (recs : List (Timestamp × (Fin 4 → ℚ))) (d : DiagState)
    (ts : Timestamp) (temps : Fin 4 → ℚ)
    (hy : ts.year < 10000) (hmo : ts.month < 100) (hd : ts.day < 100)
    (hh : ts.hour < 100) (hmi : ts.minute < 100) (hs : ts.second < 100) :
    (runCycles true recs (writeHeader emptyFile) d).1.lines
        = "Timestamp,Temp1,Temp2,Temp3,Temp4" :: recs.map recordLine
  ∧ (runCycles true recs (writeHeader emptyFile) d).1.flushed
        = ((runCycles true recs (writeHeader emptyFile) d).1.lines).length
  ∧ recordLine (ts, temps)
      = update_formatted_timestamp ts ++ "," ++ dtostrf_5_2 (temps 0) ++ "," ++
          dtostrf_5_2 (temps 1) ++ "," ++ dtostrf_5_2 (temps 2) ++ "," ++ dtostrf_5_2 (temps 3)
  ∧ (update_formatted_timestamp ts).length = 19
  ∧ (∀ x : ℚ, ∃ p k, k < 100 ∧ dtostrf_5_2 x = p ++ ("." ++ pad2 k)
      ∧ (pad2 k).length = 2 ∧ ∀ c ∈ (pad2 k).data, c.isDigit = true) := by
  obtain ⟨hl, hb, hf⟩ := runCycles_valid recs (writeHeader emptyFile) d rfl rfl
  exact ⟨by rw [hl]; rfl, hf, rfl,
    update_formatted_timestamp_length ts hy hmo hd hh hmi hs, dtostrf_frac_digits⟩

/-- Witness for C5: one cycle at 2024-01-02T03:04:05 with temperatures
23.45, 19.02, -4.5, 0 °C produces exactly the header line followed by
`2024-01-02T03:04:05,23.45,19.02,-4.50, 0.00`. -/
theorem record_format_witness :
    (ts0.year < 10000 ∧ ts0.month < 100 ∧ ts0.day < 100 ∧ ts0.hour < 100
      ∧ ts0.minute < 100 ∧ ts0.second < 100)
  ∧ (runCycles true [(ts0, temps0)] (writeHeader emptyFile) diag0).1.lines
      = ["Timestamp,Temp1,Temp2,Temp3,Temp4",
         "2024-01-02T03:04:05,23.45,19.02,-4.50, 0.00"] := by
  refine ⟨by decide, ?_⟩
  have h := (record_format [(ts0, temps0)] diag0 ts0 temps0 (by decide) (by decide)
    (by decide) (by decide) (by decide) (by decide)).1
  rw [h]
  have e0 : dtostrf_5_2 (temps0 0) = "23.45" := dtostrf_pos_example
  have e1 : dtostrf_5_2 (temps0 1) = "19.02" := dtostrf_pos_example2
  have e2 : dtostrf_5_2 (temps0 2) = "-4.50" := dtostrf_neg_example
  have e3 : dtostrf_5_2 (temps0 3) = " 0.00" := dtostrf_zero_example
  have hrl : recordLine (ts0, temps0) = "2024-01-02T03:04:05,23.45,19.02,-4.50, 0.00" := by
    simp only [recordLine]
    rw [e0, e1, e2, e3]
    decide
  simp [hrl]

theorem runCycles_invalid (recs : List (Timestamp × (Fin 4 → ℚ))) :
    ∀ (f : DataFile) (d : DiagState), runCycles false recs f d = (f, d) := by
  induction recs with
  | nil => intro f d; rfl
  | cons r rs ih => intro f d; exact ih f d

/-- C6 counterexample: running the record writer with an invalid (null)
data-file handle on concrete state changes neither the data file nor the
diagnostic sink — in particular the serial sink stays empty, so the
dropped write is *not* reported to the Diagnostic Sink (the whole body
of `save_reading_to_card`, including every `log` call, sits inside
`if (data_file)`). -/
theorem silent_drop_counterexample :
    save_reading_to_card false ts0 temps0 file1 diag0 = (file1, diag0)
  ∧ (save_reading_to_card false ts0 temps0 file1 diag0).2.serial = [] := by
  exact ⟨rfl, rfl⟩

/-- C6 (amended): with an invalid data-file handle the record writer
appends no data line and the cycle's readings are dropped *silently* —
no diagnostic message is emitted; the process does not halt (the writer
returns and every subsequent cycle is attempted, leaving the state
unchanged); and a data record is appended exactly when the handle is
valid. -/
theorem silent_drop_amended (now : Timestamp) (temps : Fin 4 → ℚ)
    (f : DataFile) (d : DiagState) :
    save_reading_to_card false now temps f d = (f, d)
  ∧ (save_reading_to_card false now temps f d).2.serial = d.serial
  ∧ (save_reading_to_card false now temps f d).2.logLines = d.logLines
  ∧ (∀ recs : List (Timestamp × (Fin 4 → ℚ)), runCycles false recs f d = (f, d))
  ∧ (∀ v : Bool, ((save_reading_to_card v now temps f d).1.lines).length
        = if v then f.lines.length + 1 else f.lines.length) := by
  refine ⟨rfl, rfl, rfl, fun recs => runCycles_invalid recs f d, fun v => ?_⟩
  cases v
  · rfl
  · simp [save_reading_to_card, DataFile.print, DataFile.println, DataFile.flush]

/-- C7: `log_error` first emits its message through the ordinary `log`
path (so the emitted serial output is non-empty and contains the
message) and then enters the non-returning halt: its result is the
terminal `halted` state, and sequencing any continuation after it never
runs the continuation.  This path is taken when `SD.begin()` fails at
startup, when `rtc.begin()` fails, and when the data-file name space is
exhausted; there is no retry around it. -/
theorem fatal_path :
    (∀ (st : DiagState) (msg : String),
      (log_error st msg : Outcome DiagState) = Outcome.halted ((log st msg).serial)
      ∧ (log st msg).serial ≠ []
      ∧ msg ∈ (log st msg).serial)
  ∧ (∀ (st : DiagState) (msg : String) (k : DiagState → Outcome DiagState),
      Outcome.bind (log_error st msg) k = log_error st msg)
  ∧ (∀ st, setupSD false st
      = (log_error (log st "Initializing SD card... ") "Failed." : Outcome DiagState))
  ∧ (∀ st, setupRTC false st
      = (log_error (log st "Initializing RTC... ") "Failed." : Outcome DiagState))
  ∧ (∀ (openOk : Bool) (st : DiagState), setupDataFile (fun _ => true) openOk st
      = log_error (log st "Creating data file... ") "Failed.") := by
  refine ⟨fun st msg => ⟨rfl, by simp [log], by simp [log]⟩,
    fun st msg k => rfl, fun st => rfl, fun st => rfl, fun openOk st => ?_⟩
  have hnone : allocate (fun _ => true) = none :=
    allocAux_none (fun _ => true) MAX_DATA_FILES 0 (fun _ _ _ => rfl)
  simp [setupDataFile, hnone]

/-- C8 counterexample: over one full 4-channel sampling cycle from a
state whose RTC returns a distinct timestamp on every call, the
real-time clock is read 4 times — not exactly once — and the `now`
snapshot that the record writer formats is the clock's 4th reading, not
the cycle's single (first) one; the formatted timestamps differ too. -/
theorem timestamp_per_channel_counterexample :
    (sample_all rs0).clockCalls = 4
  ∧ (sample_all rs0).clockCalls ≠ 1
  ∧ (sample_all rs0).now = rs0.clock 3
  ∧ (sample_all rs0).now ≠ rs0.clock 0
  ∧ update_formatted_timestamp (sample_all rs0).now
      ≠ update_formatted_timestamp (rs0.clock 0) := by
  refine ⟨rfl, by decide, rfl, by decide, ?_⟩
  have h : (sample_all rs0).now = (⟨2024, 1, 1, 0, 0, 3⟩ : Timestamp) := rfl
  rw [h]
  decide

/-- C8 (amended): the real-time clock is sourced once per *channel*
sample — `take_reading` begins with `now = rtc.now()` — so a 4-channel
cycle performs exactly 4 clock reads, and the `now` snapshot left for
the record writer is the reading taken at the start of the *last*
channel's sampling (call index `clockCalls + 3`), not a single per-cycle
snapshot independent of the channel count. -/
theorem timestamp_per_channel_amended (st : ReadState) :
    (sample_all st).clockCalls = st.clockCalls + 4
  ∧ (sample_all st).now = st.clock (st.clockCalls + 3)
  ∧ (take_reading st 0).clockCalls = st.clockCalls + 1
  ∧ (take_reading st 0).now = st.clock st.clockCalls := by
  refine ⟨?_, ?_, rfl, rfl⟩
  · simp [sample_all, take_reading]
  · show st.clock (st.clockCalls + 1 + 1 + 1) = st.clock (st.clockCalls + 3)
    congr 1

/-- C9: `take_reading t` writes only slot `t` of the per-channel reading
arrays: for every other channel index `u`, both `latest_resistance[u]`
and `latest_temperature[u]` are unchanged by the call. -/
theorem take_reading_frame (st : ReadState) (t u : Fin 4) (h : u ≠ t) :
    (take_reading st t).latest_resistance u = st.latest_resistance u
  ∧ (take_reading st t).latest_temperature u = st.latest_temperature u := by
  constructor <;> simp [take_reading, Function.update_noteq h]

/-- Witness for C9 at channel `t = 0`, other index `u = 1`, on the
concrete state `rs0`. -/
theorem take_reading_frame_witness :
    ((1 : Fin 4) ≠ 0)
  ∧ (take_reading rs0 0).latest_resistance 1 = rs0.latest_resistance 1
  ∧ (take_reading rs0 0).latest_temperature 1 = rs0.latest_temperature 1 :=
  ⟨by decide, (take_reading_frame rs0 0 1 (by decide)).1,
    (take_reading_frame rs0 0 1 (by decide)).2⟩

end FakeFrog
